import Mathlib

/-!
Verification of rat-event: the Outcome algebra and ConsumedEvent trait
from src/lib.rs, and the mouse-gesture state machine and hit-testing
helpers from src/util.rs, shallowly embedded in Lean.  Mutable `Cell`
state becomes explicit state passing; closures with side effects are
modelled as state transformers so that laziness of the combinators is
observable.
-/

/-- Modifier bitset from crossterm; only equality against the filter is
used by the code, so the bit value is kept abstract as a `Nat`. -/
structure KeyModifiers where
  bits : Nat
deriving DecidableEq, Repr

/-- The empty modifier set, `KeyModifiers::NONE`. -/
def KeyModifiers.NONE : KeyModifiers := ⟨0⟩

/-- Mouse buttons from crossterm. -/
inductive MouseButton where
  | Left
  | Right
  | Middle
deriving DecidableEq, Repr

/-- Mouse event kinds from crossterm. -/
inductive MouseEventKind where
  | Down (b : MouseButton)
  | Up (b : MouseButton)
  | Drag (b : MouseButton)
  | Moved
  | ScrollDown
  | ScrollUp
  | ScrollLeft
  | ScrollRight
deriving DecidableEq, Repr

/-- A crossterm mouse event: kind, position and held modifiers.
Coordinates are u16 in the source; they are embedded as `Nat`. -/
structure MouseEvent where
  kind : MouseEventKind
  column : Nat
  row : Nat
  modifiers : KeyModifiers
deriving DecidableEq, Repr

/-- The u16 ceiling used by ratatui's saturating edge arithmetic. -/
def u16Max : Nat := 65535

/-- A ratatui rectangle: origin plus extent, all u16 in the source. -/
structure Rect where
  x : Nat
  y : Nat
  width : Nat
  height : Nat
deriving DecidableEq, Repr

/-- `Rect::left`. -/
def Rect.left (r : Rect) : Nat := r.x

/-- `Rect::top`. -/
def Rect.top (r : Rect) : Nat := r.y

/-- `Rect::right`, which is `x.saturating_add(width)` in the source. -/
def Rect.right (r : Rect) : Nat := min (r.x + r.width) u16Max

/-- `Rect::bottom`, which is `y.saturating_add(height)` in the source. -/
def Rect.bottom (r : Rect) : Nat := min (r.y + r.height) u16Max

/-- `Rect::contains`: half-open containment test on both axes. -/
def Rect.contains (r : Rect) (px py : Nat) : Bool :=
  decide (r.x ≤ px) && decide (px < r.x + r.width) &&
    decide (r.y ≤ py) && decide (py < r.y + r.height)

/-- `MouseFlags` from src/util.rs: the per-widget gesture state.  The
source stores each flag in a `Cell<bool>`; here the record is threaded
explicitly through each call. -/
structure MouseFlags where
  click : Bool
  clack : Bool
  drag : Bool
deriving DecidableEq, Repr

/-- `MouseFlags::default()`: all three flags start false. -/
def MouseFlags.init : MouseFlags := ⟨false, false, false⟩

/-- `MouseFlags::drag2` from src/util.rs, returning the boolean result
together with the updated flags.  The match arms are translated in
source order: a guarded arm whose guard fails falls through to the
later arms, exactly as in the Rust `match`. -/
def MouseFlags.drag2 (s : MouseFlags) (area : Rect) (event : MouseEvent)
    (filter : KeyModifiers) : Bool × MouseFlags :=
  if event.kind = MouseEventKind.Down MouseButton.Left ∧ event.modifiers = filter then
    if area.contains event.column event.row then
      (false, { s with drag := true })
    else
      (false, { s with drag := false })
  else if event.kind = MouseEventKind.Drag MouseButton.Left ∧ event.modifiers = filter then
    if s.drag then (true, s) else (false, s)
  else if event.kind = MouseEventKind.Up MouseButton.Left ∨ event.kind = MouseEventKind.Moved then
    (false, { s with drag := false })
  else
    (false, s)

/-- `MouseFlags::drag`, which delegates to `drag2` with `KeyModifiers::NONE`.
(The Lean field `drag` occupies the method's source name.) -/
def MouseFlags.dragNone (s : MouseFlags) (area : Rect) (event : MouseEvent) :
    Bool × MouseFlags :=
  s.drag2 area event KeyModifiers.NONE

/-- `MouseFlags::doubleclick2` from src/util.rs, returning the boolean
result together with the updated flags.  Match arms in source order. -/
def MouseFlags.doubleclick2 (s : MouseFlags) (area : Rect) (event : MouseEvent)
    (filter : KeyModifiers) : Bool × MouseFlags :=
  if event.kind = MouseEventKind.Down MouseButton.Left ∧ event.modifiers = filter then
    if area.contains event.column event.row then
      (false, { s with click := true, clack := false })
    else
      (false, { s with click := false, clack := false })
  else if event.kind = MouseEventKind.Up MouseButton.Left ∧ event.modifiers = filter then
    if area.contains event.column event.row then
      if s.click then
        if s.clack = false then
          (false, { s with clack := true })
        else
          (true, { s with click := false, clack := false })
      else
        (false, s)
    else
      (false, { s with click := false, clack := false })
  else
    (false, s)

/-- `MouseFlags::doubleclick`, which delegates to `doubleclick2` with
`KeyModifiers::NONE`. -/
def MouseFlags.doubleclick (s : MouseFlags) (area : Rect) (event : MouseEvent) :
    Bool × MouseFlags :=
  s.doubleclick2 area event KeyModifiers.NONE

/-- Run `doubleclick2` over a list of events, collecting each boolean
result; used to state sequence properties of the click machine. -/
def dcRun (s : MouseFlags) (area : Rect) (filter : KeyModifiers) :
    List MouseEvent → List Bool × MouseFlags
  | [] => ([], s)
  | e :: es =>
    let r := s.doubleclick2 area e filter
    let rest := dcRun r.2 area filter es
    (r.1 :: rest.1, rest.2)

/-- Run `drag2` over a list of left-button-drag events at the given
positions, collecting each boolean result. -/
def dragRun (s : MouseFlags) (area : Rect) (filter : KeyModifiers) :
    List (Nat × Nat) → List Bool × MouseFlags
  | [] => ([], s)
  | p :: ps =>
    let r := s.drag2 area ⟨MouseEventKind.Drag MouseButton.Left, p.1, p.2, filter⟩ filter
    let rest := dragRun r.2 area filter ps
    (r.1 :: rest.1, rest.2)

/-- One call to any of the four public gesture entry points, with its
arguments; used to quantify over arbitrary call sequences. -/
inductive MouseOp where
  | opDrag (area : Rect) (event : MouseEvent)
  | opDrag2 (area : Rect) (event : MouseEvent) (filter : KeyModifiers)
  | opDoubleclick (area : Rect) (event : MouseEvent)
  | opDoubleclick2 (area : Rect) (event : MouseEvent) (filter : KeyModifiers)
deriving Repr

/-- The state transition of one gesture call (the boolean result is
dropped; only the flag state matters for invariants). -/
def applyOp (s : MouseFlags) : MouseOp → MouseFlags
  | MouseOp.opDrag area e => (s.dragNone area e).2
  | MouseOp.opDrag2 area e f => (s.drag2 area e f).2
  | MouseOp.opDoubleclick area e => (s.doubleclick area e).2
  | MouseOp.opDoubleclick2 area e f => (s.doubleclick2 area e f).2

/-- `row_at_clicked` from src/util.rs: first rectangle whose vertical
half-open span contains the position, scanning in list order. -/
def rowAtClickedAux (y_pos : Nat) : List Rect → Nat → Option Nat
  | [], _ => none
  | r :: rest, i =>
    if r.top ≤ y_pos ∧ y_pos < r.bottom then some i
    else rowAtClickedAux y_pos rest (i + 1)

/-- `row_at_clicked` entry point. -/
def row_at_clicked (areas : List Rect) (y_pos : Nat) : Option Nat :=
  rowAtClickedAux y_pos areas 0

/-- `row_at_drag` from src/util.rs.  `Ok(row)` when inside some area,
otherwise a signed offset: above the encompassing rect's top it is
`y_pos - top`, else one past the last area's bottom, else (empty list)
again `y_pos - top`. -/
def row_at_drag (encompassing : Rect) (areas : List Rect) (y_pos : Nat) :
    Except Int Nat :=
  match row_at_clicked areas y_pos with
  | some row => Except.ok row
  | none =>
    if y_pos < encompassing.top then
      Except.error ((y_pos : Int) - (encompassing.top : Int))
    else
      match areas.getLast? with
      | some last => Except.error ((y_pos : Int) - (last.bottom : Int) + 1)
      | none => Except.error ((y_pos : Int) - (encompassing.top : Int))

/-- `Outcome` from src/lib.rs, declared in rank order. -/
inductive Outcome where
  | NotUsed
  | Unchanged
  | Changed
deriving DecidableEq, Repr

/-- Rank of an `Outcome`, mirroring the derived `Ord` on declaration
order: NotUsed < Unchanged < Changed. -/
def Outcome.toNat : Outcome → Nat
  | Outcome.NotUsed => 0
  | Outcome.Unchanged => 1
  | Outcome.Changed => 2

instance : Ord Outcome := ⟨fun a b => compare a.toNat b.toNat⟩

/-- `std::cmp::max`: returns the second argument unless the second
compares strictly less than the first. -/
def rustMax {α : Type} [Ord α] (v1 v2 : α) : α :=
  match compare v2 v1 with
  | Ordering.lt => v1
  | _ => v2

/-- The `ConsumedEvent` trait: the one required method. -/
class ConsumedEvent (α : Type) where
  is_consumed : α → Bool

/-- The trait-default `ConsumedEvent::or_else`.  The `FnOnce` closure is
modelled as a state transformer over an arbitrary effect state `σ`, so
whether the closure ran is visible in the final state. -/
def ConsumedEvent.orElse {α σ : Type} [ConsumedEvent α] (x : α)
    (f : σ → α × σ) (st : σ) : α × σ :=
  if ConsumedEvent.is_consumed x then (x, st) else f st

/-- The trait-default `ConsumedEvent::then`, which is
`max(self, f())`: the closure is applied to the effect state first and
the maximum of the receiver and its result is returned. -/
def ConsumedEvent.thenMax {α σ : Type} [ConsumedEvent α] [Ord α] (x : α)
    (f : σ → α × σ) (st : σ) : α × σ :=
  let p := f st
  (rustMax x p.1, p.2)

/-- `impl ConsumedEvent for Outcome`: everything but `NotUsed` is
consumed. -/
instance : ConsumedEvent Outcome :=
  ⟨fun o => decide (o ≠ Outcome.NotUsed)⟩

/-- `impl ConsumedEvent for Result<V, E>`: `Ok` defers to the value,
`Err` counts as consumed.  Rust's `Result` is embedded as `Except`. -/
instance {E V : Type} [ConsumedEvent V] : ConsumedEvent (Except E V) :=
  ⟨fun r =>
    match r with
    | Except.ok v => ConsumedEvent.is_consumed v
    | Except.error _ => true⟩

/-- Claim C4 counterexample: with the receiver already at the highest
rank (`Changed`) and a closure that bumps a counter, `then` still bumps
the counter — the closure is invoked, so `then` is not lazy. -/
theorem thenMax_changed_invokes_closure :
    ConsumedEvent.thenMax Outcome.Changed (fun n => (Outcome.NotUsed, n + 1)) 0 =
      (Outcome.Changed, 1) := by
  decide

/-- Claim C4 (amended): `then` always evaluates its argument closure
exactly once, threading its effect, and returns the maximum of the
receiver and the closure's value; for a receiver of highest rank the
returned value is the receiver, but the closure has still run. -/
theorem thenMax_strict :
    ∀ (x b : Outcome) (st : Nat),
      ConsumedEvent.thenMax x (fun n => (b, n + 1)) st = (rustMax x b, st + 1)
      ∧ ConsumedEvent.thenMax Outcome.Changed (fun n => (b, n + 1)) st =
          (Outcome.Changed, st + 1) := by
  intro x b st
  refine ⟨rfl, ?_⟩
  cases b <;> rfl

/-- Claim C5: a `Result` is consumed exactly when it is an `Ok` whose
value is consumed, or any `Err`. -/
theorem result_is_consumed_iff :
    ∀ (E V : Type) [ConsumedEvent V] (r : Except E V),
      ConsumedEvent.is_consumed r = true ↔
        (∃ v, r = Except.ok v ∧ ConsumedEvent.is_consumed v = true) ∨
          (∃ e, r = Except.error e) := by
  intro E V _ r
  cases r with
  | ok v => simp [ConsumedEvent.is_consumed]
  | error e => simp [ConsumedEvent.is_consumed]

/-- Claim C5 witness: evaluated at `Err(())` over `Outcome`. -/
theorem result_is_consumed_iff_witness :
    ConsumedEvent.is_consumed (Except.error () : Except Unit Outcome) = true :=
  (result_is_consumed_iff Unit Outcome (Except.error ())).mpr (Or.inr ⟨(), rfl⟩)

/-- Claim C6: for all outcomes `a`, `b`, `a.then(|| b)` is the maximum
of `a` and `b` in the rank order NotUsed < Unchanged < Changed (it has
the maximal rank and is one of the two operands), and `NotUsed` is a
two-sided identity for `then`. -/
theorem outcome_then_is_max :
    ∀ (a b : Outcome),
      (ConsumedEvent.thenMax a (fun st : Unit => (b, st)) ()).1 = rustMax a b
      ∧ (rustMax a b).toNat = Nat.max a.toNat b.toNat
      ∧ (rustMax a b = a ∨ rustMax a b = b)
      ∧ (ConsumedEvent.thenMax a (fun st : Unit => (Outcome.NotUsed, st)) ()).1 = a
      ∧ (ConsumedEvent.thenMax Outcome.NotUsed (fun st : Unit => (b, st)) ()).1 = b := by
  intro a b
  cases a <;> cases b <;> decide

/-- Claim C7: `or_else` returns the receiver with the effect state
untouched (the closure never runs) when the receiver is consumed, and
otherwise its result is exactly one application of the closure. -/
theorem or_else_lazy :
    ∀ (α σ : Type) [ConsumedEvent α] (r : α) (f : σ → α × σ) (st : σ),
      (ConsumedEvent.is_consumed r = true →
        ConsumedEvent.orElse r f st = (r, st))
      ∧ (ConsumedEvent.is_consumed r = false →
        ConsumedEvent.orElse r f st = f st) := by
  intro α σ _ r f st
  constructor <;> intro h <;> simp [ConsumedEvent.orElse, h]

/-- Claim C7 witness: a consumed receiver leaves the counter at 0; a
non-consumed receiver returns the closure's value with the counter
bumped to 1. -/
theorem or_else_lazy_witness :
    ConsumedEvent.orElse Outcome.Changed (fun n : Nat => (Outcome.Unchanged, n + 1)) 0 =
      (Outcome.Changed, 0)
    ∧ ConsumedEvent.orElse Outcome.NotUsed (fun n : Nat => (Outcome.Unchanged, n + 1)) 0 =
      (Outcome.Unchanged, 1) :=
  ⟨(or_else_lazy Outcome Nat Outcome.Changed _ 0).1 (by decide),
   (or_else_lazy Outcome Nat Outcome.NotUsed _ 0).2 (by decide)⟩

/-- Claim C1: evaluation of the code at the claimed input.  From the
default state, the sequence down-inside, up-inside, down-inside,
up-inside (modifiers matching the filter) makes `doubleclick2` return
false on all four events — the second down clears `clack`, so the
second up re-arms `clack` instead of firing — leaving click and clack
both true, contrary to the documented double-click behaviour. -/
theorem doubleclick2_down_up_down_up_never_fires :
    dcRun MouseFlags.init ⟨0, 0, 10, 10⟩ KeyModifiers.NONE
      [⟨MouseEventKind.Down MouseButton.Left, 5, 5, KeyModifiers.NONE⟩,
       ⟨MouseEventKind.Up MouseButton.Left, 5, 5, KeyModifiers.NONE⟩,
       ⟨MouseEventKind.Down MouseButton.Left, 5, 5, KeyModifiers.NONE⟩,
       ⟨MouseEventKind.Up MouseButton.Left, 5, 5, KeyModifiers.NONE⟩] =
      ([false, false, false, false], ⟨true, true, false⟩) := by
  decide

/-- Claim C2: a matching left-button-down inside the area arms the drag
flag; while armed, any run of matching left-button-drag events reports
true at every position and leaves the state untouched; any left-up or
plain move clears the flag regardless of position and modifiers; and a
left-button-drag while disarmed reports false. -/
theorem drag2_sequence_spec :
    ∀ (s : MouseFlags) (area : Rect) (filter : KeyModifiers),
      (∀ c r, area.contains c r = true →
        (s.drag2 area ⟨MouseEventKind.Down MouseButton.Left, c, r, filter⟩ filter).2.drag
          = true)
      ∧ (∀ ps : List (Nat × Nat), s.drag = true →
          dragRun s area filter ps = (List.replicate ps.length true, s))
      ∧ (∀ e : MouseEvent,
          e.kind = MouseEventKind.Up MouseButton.Left ∨ e.kind = MouseEventKind.Moved →
          (s.drag2 area e filter).2.drag = false)
      ∧ (∀ e : MouseEvent, s.drag = false →
          e.kind = MouseEventKind.Drag MouseButton.Left →
          (s.drag2 area e filter).1 = false) := by
  intro s area filter
  refine ⟨?_, ?_, ?_, ?_⟩
  · intro c r h
    simp [MouseFlags.drag2, h]
  · intro ps hdrag
    induction ps with
    | nil => simp [dragRun]
    | cons p ps ih => simp [dragRun, MouseFlags.drag2, hdrag, ih, List.replicate]
  · intro e h
    obtain ⟨k, c, r, m⟩ := e
    rcases h with h | h <;> subst h <;>
      by_cases hm : m = filter <;> simp [MouseFlags.drag2, hm]
  · intro e hdrag h
    obtain ⟨k, c, r, m⟩ := e
    subst h
    by_cases hm : m = filter <;> simp [MouseFlags.drag2, hm, hdrag]

/-- Claim C2 witness: the spec example — down at (5,5) inside a 10×10
area arms; drags at (5,6) and (5,50) (outside) both true; an up clears;
a drag from the cleared state is false. -/
theorem drag2_sequence_spec_witness :
    (MouseFlags.init.drag2 ⟨0, 0, 10, 10⟩
        ⟨MouseEventKind.Down MouseButton.Left, 5, 5, KeyModifiers.NONE⟩
        KeyModifiers.NONE).2.drag = true
    ∧ dragRun ⟨false, false, true⟩ ⟨0, 0, 10, 10⟩ KeyModifiers.NONE [(5, 6), (5, 50)] =
        ([true, true], ⟨false, false, true⟩)
    ∧ ((⟨false, false, true⟩ : MouseFlags).drag2 ⟨0, 0, 10, 10⟩
        ⟨MouseEventKind.Up MouseButton.Left, 5, 50, KeyModifiers.NONE⟩
        KeyModifiers.NONE).2.drag = false
    ∧ ((⟨false, false, false⟩ : MouseFlags).drag2 ⟨0, 0, 10, 10⟩
        ⟨MouseEventKind.Drag MouseButton.Left, 5, 6, KeyModifiers.NONE⟩
        KeyModifiers.NONE).1 = false :=
  ⟨(drag2_sequence_spec MouseFlags.init ⟨0, 0, 10, 10⟩ KeyModifiers.NONE).1 5 5 (by decide),
   (drag2_sequence_spec ⟨false, false, true⟩ ⟨0, 0, 10, 10⟩ KeyModifiers.NONE).2.1
     [(5, 6), (5, 50)] rfl,
   (drag2_sequence_spec ⟨false, false, true⟩ ⟨0, 0, 10, 10⟩ KeyModifiers.NONE).2.2.1
     ⟨MouseEventKind.Up MouseButton.Left, 5, 50, KeyModifiers.NONE⟩ (Or.inl rfl),
   (drag2_sequence_spec ⟨false, false, false⟩ ⟨0, 0, 10, 10⟩ KeyModifiers.NONE).2.2.2
     ⟨MouseEventKind.Drag MouseButton.Left, 5, 6, KeyModifiers.NONE⟩ rfl rfl⟩

/-- Claim C3 counterexample: from the state with all three flags true,
a left-button-down whose modifiers (bit 1) differ from the filter
(NONE) falls through every guarded arm, so `drag2` leaves `drag` true
and `doubleclick2` leaves `click` and `clack` true — nothing is reset. -/
theorem down_modifier_mismatch_not_reset :
    (MouseFlags.drag2 ⟨true, true, true⟩ ⟨0, 0, 10, 10⟩
        ⟨MouseEventKind.Down MouseButton.Left, 1, 1, ⟨1⟩⟩ KeyModifiers.NONE).2.drag = true
    ∧ (MouseFlags.doubleclick2 ⟨true, true, true⟩ ⟨0, 0, 10, 10⟩
        ⟨MouseEventKind.Down MouseButton.Left, 1, 1, ⟨1⟩⟩ KeyModifiers.NONE).2.click = true
    ∧ (MouseFlags.doubleclick2 ⟨true, true, true⟩ ⟨0, 0, 10, 10⟩
        ⟨MouseEventKind.Down MouseButton.Left, 1, 1, ⟨1⟩⟩ KeyModifiers.NONE).2.clack = true := by
  decide

/-- Claim C3 (amended): a left-button-down whose modifier set differs
from the filter matches no arm of either state machine: `drag2` and
`doubleclick2` both return false and leave every flag unchanged. -/
theorem down_modifier_mismatch_noop :
    ∀ (s : MouseFlags) (area : Rect) (e : MouseEvent) (filter : KeyModifiers),
      e.kind = MouseEventKind.Down MouseButton.Left →
      e.modifiers ≠ filter →
      s.drag2 area e filter = (false, s) ∧ s.doubleclick2 area e filter = (false, s) := by
  intro s area e filter hk hm
  obtain ⟨k, c, r, m⟩ := e
  subst hk
  simp only [MouseEvent.modifiers] at hm
  constructor <;> simp [MouseFlags.drag2, MouseFlags.doubleclick2, hm]

/-- Claim C3 witness: the amended no-op behaviour at the
counterexample's input. -/
theorem down_modifier_mismatch_noop_witness :
    MouseFlags.drag2 ⟨true, true, true⟩ ⟨0, 0, 10, 10⟩
        ⟨MouseEventKind.Down MouseButton.Left, 1, 1, ⟨1⟩⟩ KeyModifiers.NONE =
      (false, ⟨true, true, true⟩)
    ∧ MouseFlags.doubleclick2 ⟨true, true, true⟩ ⟨0, 0, 10, 10⟩
        ⟨MouseEventKind.Down MouseButton.Left, 1, 1, ⟨1⟩⟩ KeyModifiers.NONE =
      (false, ⟨true, true, true⟩) :=
  down_modifier_mismatch_noop ⟨true, true, true⟩ ⟨0, 0, 10, 10⟩
    ⟨MouseEventKind.Down MouseButton.Left, 1, 1, ⟨1⟩⟩ KeyModifiers.NONE rfl (by decide)

/-- Claim C10: an event whose kind is neither Down(Left), Up(Left),
Drag(Left) nor Moved — right/middle buttons, scrolls — matches no arm:
both `drag2` and `doubleclick2` return false and leave the flags
unchanged, for every state, area, position and modifier set. -/
theorem other_kinds_noop :
    ∀ (s : MouseFlags) (area : Rect) (e : MouseEvent) (filter : KeyModifiers),
      e.kind ≠ MouseEventKind.Down MouseButton.Left →
      e.kind ≠ MouseEventKind.Up MouseButton.Left →
      e.kind ≠ MouseEventKind.Drag MouseButton.Left →
      e.kind ≠ MouseEventKind.Moved →
      s.drag2 area e filter = (false, s) ∧ s.doubleclick2 area e filter = (false, s) := by
  intro s area e filter h1 h2 h3 h4
  obtain ⟨k, c, r, m⟩ := e
  simp only [MouseEvent.kind] at h1 h2 h3 h4
  constructor <;> simp [MouseFlags.drag2, MouseFlags.doubleclick2, h1, h2, h3, h4]

/-- Claim C10 witness: a right-button down and a scroll event leave a
mixed state untouched. -/
theorem other_kinds_noop_witness :
    MouseFlags.drag2 ⟨true, false, true⟩ ⟨0, 0, 10, 10⟩
        ⟨MouseEventKind.Down MouseButton.Right, 5, 5, KeyModifiers.NONE⟩ KeyModifiers.NONE =
      (false, ⟨true, false, true⟩)
    ∧ MouseFlags.doubleclick2 ⟨true, true, false⟩ ⟨0, 0, 10, 10⟩
        ⟨MouseEventKind.ScrollDown, 5, 5, ⟨3⟩⟩ KeyModifiers.NONE =
      (false, ⟨true, true, false⟩) :=
  ⟨(other_kinds_noop ⟨true, false, true⟩ ⟨0, 0, 10, 10⟩
      ⟨MouseEventKind.Down MouseButton.Right, 5, 5, KeyModifiers.NONE⟩ KeyModifiers.NONE
      (by decide) (by decide) (by decide) (by decide)).1,
   (other_kinds_noop ⟨true, true, false⟩ ⟨0, 0, 10, 10⟩
      ⟨MouseEventKind.ScrollDown, 5, 5, ⟨3⟩⟩ KeyModifiers.NONE
      (by decide) (by decide) (by decide) (by decide)).2⟩

/-- Claim C8: when the position is in no area, `row_at_drag` returns the
signed offset from the encompassing top when above it, else from one
past the last area's bottom when the list is non-empty, else from the
encompassing top; concretely, areas over rows 2–4 and 5–7 give Err(3)
at row 10, and Err(-2) at row 0 with the container top at row 2. -/
theorem row_at_drag_spec :
    ∀ (enc : Rect) (areas : List Rect) (y_pos : Nat),
      (row_at_clicked areas y_pos = none → y_pos < enc.top →
        row_at_drag enc areas y_pos = Except.error ((y_pos : Int) - (enc.top : Int)))
      ∧ (row_at_clicked areas y_pos = none → ¬ y_pos < enc.top →
          ∀ last, areas.getLast? = some last →
            row_at_drag enc areas y_pos =
              Except.error ((y_pos : Int) - (last.bottom : Int) + 1))
      ∧ (row_at_clicked areas y_pos = none → areas = [] →
          row_at_drag enc areas y_pos = Except.error ((y_pos : Int) - (enc.top : Int)))
      ∧ row_at_drag ⟨0, 2, 10, 6⟩ [⟨0, 2, 10, 3⟩, ⟨0, 5, 10, 3⟩] 10 = Except.error 3
      ∧ row_at_drag ⟨0, 2, 10, 6⟩ [⟨0, 2, 10, 3⟩, ⟨0, 5, 10, 3⟩] 0 = Except.error (-2) := by
  intro enc areas y_pos
  refine ⟨?_, ?_, ?_, by rfl, by rfl⟩
  · intro hnone hlt
    simp [row_at_drag, hnone, hlt]
  · intro hnone hge last hlast
    simp [row_at_drag, hnone, hge, hlast]
  · intro hnone hempty
    subst hempty
    simp [row_at_drag, hnone]

/-- Claim C8 witness: the above-top branch applied at the concrete
spec example, row 0 against a container whose top is row 2. -/
theorem row_at_drag_spec_witness :
    row_at_drag ⟨0, 2, 10, 6⟩ [⟨0, 2, 10, 3⟩, ⟨0, 5, 10, 3⟩] 0 =
      Except.error ((0 : Int) - ((Rect.top ⟨0, 2, 10, 6⟩ : Nat) : Int)) :=
  (row_at_drag_spec ⟨0, 2, 10, 6⟩ [⟨0, 2, 10, 3⟩, ⟨0, 5, 10, 3⟩] 0).1 (by decide) (by decide)

/-- The per-state invariant of claim C9: `clack` only while `click`. -/
def ClickInv (s : MouseFlags) : Prop := s.clack = true → s.click = true

/-- `drag2` never touches `click` or `clack`, so it preserves the
invariant. -/
theorem clickInv_drag2 (s : MouseFlags) (area : Rect) (e : MouseEvent)
    (filter : KeyModifiers) (h : ClickInv s) : ClickInv (s.drag2 area e filter).2 := by
  unfold ClickInv at h ⊢
  unfold MouseFlags.drag2
  split_ifs <;> simp_all

/-- Every arm of `doubleclick2` re-establishes the invariant. -/
theorem clickInv_doubleclick2 (s : MouseFlags) (area : Rect) (e : MouseEvent)
    (filter : KeyModifiers) (h : ClickInv s) : ClickInv (s.doubleclick2 area e filter).2 := by
  unfold ClickInv at h ⊢
  unfold MouseFlags.doubleclick2
  split_ifs <;> simp_all

/-- Any single gesture call preserves the invariant. -/
theorem clickInv_applyOp (s : MouseFlags) (op : MouseOp) (h : ClickInv s) :
    ClickInv (applyOp s op) := by
  cases op with
  | opDrag area e => exact clickInv_drag2 s area e KeyModifiers.NONE h
  | opDrag2 area e f => exact clickInv_drag2 s area e f h
  | opDoubleclick area e => exact clickInv_doubleclick2 s area e KeyModifiers.NONE h
  | opDoubleclick2 area e f => exact clickInv_doubleclick2 s area e f h

/-- The invariant is preserved along any call sequence. -/
theorem clickInv_foldl (ops : List MouseOp) :
    ∀ s : MouseFlags, ClickInv s → ClickInv (List.foldl applyOp s ops) := by
  induction ops with
  | nil => intro s h; exact h
  | cons op ops ih => intro s h; exact ih (applyOp s op) (clickInv_applyOp s op h)

/-- Claim C9: after any sequence of `drag`, `drag2`, `doubleclick` and
`doubleclick2` calls from the default state, `clack` is true only if
`click` is true: no reachable state has `clack` set with `click` clear. -/
theorem mouseflags_clack_implies_click :
    ∀ ops : List MouseOp,
      (List.foldl applyOp MouseFlags.init ops).clack = true →
      (List.foldl applyOp MouseFlags.init ops).click = true :=
  fun ops => clickInv_foldl ops MouseFlags.init (by intro h; exact absurd h (by decide))

/-- Claim C9 witness: after a down-inside then up-inside pair, `clack`
is true and the invariant yields `click` true. -/
theorem mouseflags_clack_implies_click_witness :
    (List.foldl applyOp MouseFlags.init
      [MouseOp.opDoubleclick2 ⟨0, 0, 10, 10⟩
         ⟨MouseEventKind.Down MouseButton.Left, 5, 5, KeyModifiers.NONE⟩ KeyModifiers.NONE,
       MouseOp.opDoubleclick2 ⟨0, 0, 10, 10⟩
         ⟨MouseEventKind.Up MouseButton.Left, 5, 5, KeyModifiers.NONE⟩ KeyModifiers.NONE]).click
      = true :=
  mouseflags_clack_implies_click
    [MouseOp.opDoubleclick2 ⟨0, 0, 10, 10⟩
       ⟨MouseEventKind.Down MouseButton.Left, 5, 5, KeyModifiers.NONE⟩ KeyModifiers.NONE,
     MouseOp.opDoubleclick2 ⟨0, 0, 10, 10⟩
       ⟨MouseEventKind.Up MouseButton.Left, 5, 5, KeyModifiers.NONE⟩ KeyModifiers.NONE]
    (by decide)

/-- Claim C4 witness: the amended statement evaluated at concrete
operands, including a `Changed` receiver whose closure still runs. -/
theorem thenMax_strict_witness :
    ConsumedEvent.thenMax Outcome.Unchanged (fun n : Nat => (Outcome.Changed, n + 1)) 0 =
      (rustMax Outcome.Unchanged Outcome.Changed, 1)
    ∧ ConsumedEvent.thenMax Outcome.Changed (fun n : Nat => (Outcome.Changed, n + 1)) 0 =
      (Outcome.Changed, 1) :=
  thenMax_strict Outcome.Unchanged Outcome.Changed 0

/-- Claim C6 witness: the max and identity laws evaluated at
`Unchanged` and `Changed`. -/
theorem outcome_then_is_max_witness :
    (ConsumedEvent.thenMax Outcome.Unchanged (fun st : Unit => (Outcome.Changed, st)) ()).1 =
      rustMax Outcome.Unchanged Outcome.Changed
    ∧ (rustMax Outcome.Unchanged Outcome.Changed).toNat =
      Nat.max (Outcome.toNat Outcome.Unchanged) (Outcome.toNat Outcome.Changed)
    ∧ (rustMax Outcome.Unchanged Outcome.Changed = Outcome.Unchanged ∨
        rustMax Outcome.Unchanged Outcome.Changed = Outcome.Changed)
    ∧ (ConsumedEvent.thenMax Outcome.Unchanged
        (fun st : Unit => (Outcome.NotUsed, st)) ()).1 = Outcome.Unchanged
    ∧ (ConsumedEvent.thenMax Outcome.NotUsed
        (fun st : Unit => (Outcome.Changed, st)) ()).1 = Outcome.Changed :=
  outcome_then_is_max Outcome.Unchanged Outcome.Changed
